import Mathlib

/-!
Verification of the camera-capability resolution engine of this repository
(`src/App.tsx`, three screen variants separated by document markers, plus a
minimal fourth variant in `src/unnamed/part_000` that contains no decision
logic).  The definitions below are a shallow embedding of the TypeScript
source: JS numbers carrying exact integer resolutions become `ℕ`, JS numbers
carrying scores/zoom factors become `ℚ` (exact-rational idealisation of the
float arithmetic; every comparison settled below is robust to rounding),
possibly-`undefined` fields become `Option`, and JS `NaN`-propagation through
comparisons (`NaN > x` is `false`) is modelled where it matters (see `score`).
-/

/-- Physical lens tags, the strings `'wide-angle-camera'`,
`'ultra-wide-angle-camera'`, `'telephoto-camera'` of `device.physicalDevices`
in the source. -/
inductive PhysLens where
  | wideAngle
  | ultraWideAngle
  | telephoto
deriving DecidableEq, Repr

/-- Device facing, the `device.position` string (`'front'` / `'back'`). -/
inductive Position where
  | front
  | back
deriving DecidableEq, Repr

/-- One capture format (`CameraFormat` in the source).  `videoWidth`,
`videoHeight` and `maxFrameRate` are always present; `photoWidth` and
`photoHeight` may be `undefined` in the source (the code filters on
`f.photoWidth && f.photoHeight`), hence `Option ℕ`. -/
structure Format where
  videoWidth : ℕ
  videoHeight : ℕ
  photoWidth : Option ℕ
  photoHeight : Option ℕ
  maxFrameRate : ℚ
  fieldOfView : ℚ
deriving DecidableEq, Repr

/-- One camera device (`CameraDevice` in the source).  Zoom attributes may be
`undefined`/`0` (the code guards them with `|| 1`), hence `Option ℚ` with
`some 0` standing for a reported zero. -/
structure Device where
  name : String
  id : String
  position : Position
  physicalDevices : List PhysLens
  formats : List Format
  minZoom : Option ℚ
  neutralZoom : Option ℚ
  maxZoom : Option ℚ
deriving DecidableEq, Repr

/-! ## String helpers mirroring the JS string operations -/

/-- Whether `pat` occurs at the head of `s` (helper for `containsSub`). -/
def startsWithL : List Char → List Char → Bool
  | _, [] => true
  | [], _ :: _ => false
  | a :: as, b :: bs => a == b && startsWithL as bs

/-- Whether `pat` occurs contiguously anywhere in `s`; mirrors JS
`String.prototype.includes`. -/
def containsSub : List Char → List Char → Bool
  | [], pat => pat.isEmpty
  | s@(_ :: rest), pat => startsWithL s pat || containsSub rest pat

/-- JS `s.includes(pat)`. -/
def jsIncludes (s pat : String) : Bool :=
  containsSub s.toList pat.toList

/-- Split a character list on a separator character; mirrors JS
`String.prototype.split` with a one-character separator. -/
def splitOnChar (c : Char) : List Char → List (List Char)
  | [] => [[]]
  | a :: rest =>
    match splitOnChar c rest with
    | [] => [[a]]
    | g :: gs => if a == c then [] :: g :: gs else (a :: g) :: gs

/-- JS `Number(s)` restricted to the unsigned-decimal strings this program
feeds it: all-digit strings (including the empty string, which JS maps to
`0`) evaluate to their value, anything else is `NaN`, modelled as `none`. -/
def jsNumber (s : List Char) : Option ℕ :=
  if s.all (fun c => c.isDigit) then
    some (s.foldl (fun n c => n * 10 + (c.toNat - 48)) 0)
  else
    none

/-- `parseResolutionString` of the source:
`res.split('x').map(Number)` destructured into `{width, height}`.  The
`getD 0` default stands for the `NaN`/`undefined` cases, which are never hit
for the catalog strings this program parses (all are `digits ++ "x" ++
digits`). -/
def parseResolutionString (res : String) : ℕ × ℕ :=
  match (splitOnChar 'x' res.toList).map jsNumber with
  | a :: b :: _ => (a.getD 0, b.getD 0)
  | [a] => (a.getD 0, 0)
  | [] => (0, 0)

/-! ## ResolutionCatalog

`predefinedResolutionsByRatio` of screen variants 1 and 2 (identical in
both), and the variant-3 table which additionally lists `"3000x3000"` and
`"3000x4000"`.  The source sorts each literal array ascending by width then
height; every literal array is already in that order, so the embedded lists
are the post-sort values.  An unknown key yields `[]` (the source guards with
`!predefinedResolutionsByRatio[ratioKey]`). -/

def predefinedResolutionsByRatio (key : String) : List String :=
  if key = "Square (1:1)" then
    ["720x720", "960x960", "1080x1080", "1200x1200", "1280x1280",
     "1440x1440", "1600x1600", "1920x1920", "2048x2048",
     "2160x2160", "2560x2560", "3024x3024"]
  else if key = "4x3 Landscape (4:3)" then
    ["960x720", "1280x960", "1440x1080", "1600x1200",
     "2048x1536", "2448x1836", "2560x1920", "2880x2160", "3024x2268"]
  else if key = "3x4 Portrait (3:4)" then
    ["720x960", "960x1280", "1080x1440", "1200x1600",
     "1536x2048", "1836x2448", "1920x2560", "2160x2880",
     "2268x3024", "3024x4032"]
  else if key = "16x9 Landscape (16:9)" then
    ["1280x720", "1600x900", "1920x1080", "2160x1215",
     "2560x1440", "3024x1701"]
  else if key = "9x16 Portrait (9:16)" then
    ["720x1280", "900x1600", "1080x1920", "1215x2160",
     "1440x2560", "1701x3024", "2160x3840", "2268x4032"]
  else []

def predefinedResolutionsByRatioV3 (key : String) : List String :=
  if key = "Square (1:1)" then
    ["720x720", "960x960", "1080x1080", "1200x1200", "1280x1280",
     "1440x1440", "1600x1600", "1920x1920", "2048x2048",
     "2160x2160", "2560x2560", "3000x3000", "3024x3024"]
  else if key = "4x3 Landscape (4:3)" then
    ["960x720", "1280x960", "1440x1080", "1600x1200",
     "2048x1536", "2448x1836", "2560x1920", "2880x2160", "3024x2268"]
  else if key = "3x4 Portrait (3:4)" then
    ["720x960", "960x1280", "1080x1440", "1200x1600",
     "1536x2048", "1836x2448", "1920x2560", "2160x2880",
     "2268x3024", "3000x4000", "3024x4032"]
  else if key = "16x9 Landscape (16:9)" then
    ["1280x720", "1600x900", "1920x1080", "2160x1215",
     "2560x1440", "3024x1701"]
  else if key = "9x16 Portrait (9:16)" then
    ["720x1280", "900x1600", "1080x1920", "1215x2160",
     "1440x2560", "1701x3024", "2160x3840", "2268x4032"]
  else []

/-! ## DeviceClassifier

The `deviceName` assignment inside `devices.forEach` (identical in all three
variants).  The initial `device.name || device.id` value is dead code for the
two-valued `position` of the data model: both branches overwrite it. -/

/-- Classification of one device into a display label. -/
def classify (d : Device) : String :=
  match d.position with
  | .front =>
    if d.physicalDevices.contains .ultraWideAngle then
      "Front Ultra Wide Camera"
    else if jsIncludes d.name "TrueDepth" || jsIncludes d.id "TrueDepth" then
      "Front TrueDepth Camera"
    else
      "Front Camera"
  | .back =>
    if d.physicalDevices.contains .ultraWideAngle
        && d.physicalDevices.contains .wideAngle
        && d.physicalDevices.contains .telephoto then
      "Back Triple Camera"
    else if d.physicalDevices.contains .ultraWideAngle
        && d.physicalDevices.contains .wideAngle then
      "Back Dual Wide Camera"
    else if d.physicalDevices.contains .wideAngle
        && d.physicalDevices.contains .telephoto then
      "Back Dual Camera"
    else if d.physicalDevices.contains .telephoto then
      "Back Telephoto Camera"
    else if d.physicalDevices.contains .ultraWideAngle then
      "Back Ultra Wide Camera"
    else
      "Back Camera"

/-- The nine display labels the classifier can produce. -/
def nineLabels : List String :=
  ["Front Ultra Wide Camera", "Front TrueDepth Camera", "Front Camera",
   "Back Triple Camera", "Back Dual Wide Camera", "Back Dual Camera",
   "Back Telephoto Camera", "Back Ultra Wide Camera", "Back Camera"]

/-! ## ZoomPolicy -/

/-- JS `x || 1` on a possibly-`undefined` number: `undefined` and `0` are
falsy and give `1`; any other number (JS truthiness) is returned as is. -/
def jsOrOne (x : Option ℚ) : ℚ :=
  match x with
  | none => 1
  | some v => if v = 0 then 1 else v

/-- The guard of the zoom branch in the `selectedDevice` effects:
`physicalDevices` includes both ultra-wide and wide, and the device faces
back. -/
def isDualWideBack (d : Device) : Bool :=
  d.physicalDevices.contains .ultraWideAngle
    && d.physicalDevices.contains .wideAngle
    && d.position == .back

/-- Default zoom of screen variant 1 (`App.tsx` lines 222-230): back
dual-wide devices get `minZoom || 1`, everything else `neutralZoom || 1`. -/
def defaultZoomV1 (d : Device) : ℚ :=
  if isDualWideBack d then jsOrOne d.minZoom else jsOrOne d.neutralZoom

/-- Default zoom of screen variant 3 (`App.tsx` lines 1510-1516): the source
keeps the same conditional but both branches yield `neutralZoom || 1`. -/
def defaultZoomV3 (d : Device) : ℚ :=
  if isDualWideBack d then jsOrOne d.neutralZoom else jsOrOne d.neutralZoom

/-! ## FormatScorer

`findBestFormatForResolution` of screen variant 3 (`App.tsx` lines
1302-1336).  The source computes, per format,
`aspectRatioScore = 1 / (1 + |targetAR - photoWidth/photoHeight|)`,
`resolutionScore = photoWidth ≥ w && photoHeight ≥ h ?
  1 / (1 + |photoArea - targetArea| / 100000) : 0`,
an `fovScore` multiplier, and keeps the format with strictly greatest total.
When `photoWidth`/`photoHeight` is `undefined`, the JS arithmetic produces
`NaN`, `totalScore` is `NaN`, and `NaN > maxScore` is `false`, so the format
never becomes `bestFormat`; this is modelled by `score` returning `none` and
the loop skipping such formats. -/

/-- The multi-lens guard of the fov branch: wide-angle present together with
ultra-wide or telephoto. -/
def multiLens (d : Device) : Bool :=
  d.physicalDevices.contains .wideAngle
    && (d.physicalDevices.contains .ultraWideAngle
        || d.physicalDevices.contains .telephoto)

/-- `fovScore` of the source: `1.5` for a multi-lens device when the format's
field of view lies in `[65, 95]`, `0.8` for a multi-lens device otherwise,
and `1.0` when the multi-lens guard fails. -/
def fovScore (d : Device) (f : Format) : ℚ :=
  if multiLens d then
    if 65 ≤ f.fieldOfView ∧ f.fieldOfView ≤ 95 then 1.5 else 0.8
  else 1

/-- `aspectRatioScore` of the source for a format with photo dimensions
`w × h`. -/
def aspectScore (target : ℕ × ℕ) (w h : ℕ) : ℚ :=
  1 / (1 + |(target.1 : ℚ) / (target.2 : ℚ) - (w : ℚ) / (h : ℚ)|)

/-- `resolutionScore` of the source for a format with photo dimensions
`w × h`. -/
def resolutionScore (target : ℕ × ℕ) (w h : ℕ) : ℚ :=
  if target.1 ≤ w ∧ target.2 ≤ h then
    1 / (1 + |(w : ℚ) * (h : ℚ) - (target.1 : ℚ) * (target.2 : ℚ)| / 100000)
  else 0

/-- `totalScore` of one format, `none` when a photo dimension is absent (the
JS `NaN` case, which can never win the strict comparison). -/
def score (d : Device) (target : ℕ × ℕ) (f : Format) : Option ℚ :=
  match f.photoWidth, f.photoHeight with
  | some w, some h =>
    some ((aspectScore target w h * 2 + resolutionScore target w h * 1.5)
            * fovScore d f)
  | _, _ => none

/-- The `for (const format of device.formats)` accumulation of the source:
`best` and `maxScore` start as `undefined` and `-1`; a format replaces them
exactly when its total score strictly exceeds `maxScore`. -/
def bestLoop (d : Device) (target : ℕ × ℕ) :
    List Format → Option Format → ℚ → Option Format × ℚ
  | [], best, maxScore => (best, maxScore)
  | f :: rest, best, maxScore =>
    match score d target f with
    | none => bestLoop d target rest best maxScore
    | some s =>
      if maxScore < s then bestLoop d target rest (some f) s
      else bestLoop d target rest best maxScore

/-- `findBestFormatForResolution(device, targetResolution,
targetAspectRatioKey)`.  The third argument is accepted, as in the source,
and never read. -/
def findBestFormatForResolution (d : Device) (target : ℕ × ℕ)
    (targetAspectRatioKey : String) : Option Format :=
  (bestLoop d target d.formats none (-1)).1

/-! ## CapabilityFilter -/

/-- Whether some format of `d` has exact video dimensions matching the parsed
resolution string; the `availableFormats.some(...)` check of variants 1
and 2. -/
def videoMatch (d : Device) (s : String) : Bool :=
  d.formats.any fun f =>
    decide (f.videoWidth = (parseResolutionString s).1)
      && decide (f.videoHeight = (parseResolutionString s).2)

/-- The availability filter of variant 1 applied to an arbitrary list of
resolution strings (`selectedDevice` absent yields `[]`). -/
def availFilterV1 (dOpt : Option Device) (l : List String) : List String :=
  match dOpt with
  | none => []
  | some d => l.filter (videoMatch d)

/-- `getSupportedResolutionsForRatio` of variant 1 (`App.tsx` lines
302-324). -/
def getSupportedResolutionsForRatioV1 (dOpt : Option Device) (key : String) :
    List String :=
  availFilterV1 dOpt (predefinedResolutionsByRatio key)

/-- The availability filter of variant 2: the 2160×2160 hard ceiling is
applied before the exact video match. -/
def availFilterV2 (dOpt : Option Device) (l : List String) : List String :=
  match dOpt with
  | none => []
  | some d =>
    l.filter fun s =>
      if (parseResolutionString s).1 > 2160 ∨ (parseResolutionString s).2 > 2160
      then false
      else videoMatch d s

/-- `getSupportedResolutionsForRatio` of variant 2 (`App.tsx` lines
884-914). -/
def getSupportedResolutionsForRatioV2 (dOpt : Option Device) (key : String) :
    List String :=
  availFilterV2 dOpt (predefinedResolutionsByRatio key)

/-- `f.photoWidth && f.photoHeight` — both photo dimensions present and
nonzero (JS truthiness). -/
def hasPhotoB (f : Format) : Bool :=
  match f.photoWidth, f.photoHeight with
  | some w, some h => decide (w ≠ 0) && decide (h ≠ 0)
  | _, _ => false

/-- Photo area of a format, `0` for an absent dimension. -/
def photoArea (f : Format) : ℕ :=
  f.photoWidth.getD 0 * f.photoHeight.getD 0

/-- First photo-capable format of greatest photo area: the
`[...formats].filter(photoWidth && photoHeight).sort(byAreaDesc)[0]` of the
variant-3 `selectedDevice` effect (V8's stable sort keeps the first
occurrence of the maximal area in front). -/
def maxPhotoFormat (formats : List Format) : Option Format :=
  (formats.filter hasPhotoB).foldl
    (fun acc f =>
      match acc with
      | none => some f
      | some g => if photoArea g < photoArea f then some f else acc)
    none

/-- `maxPhotoResolutionForDevice` derived in the variant-3 effect on
`selectedDevice` (`App.tsx` lines 1476-1489). -/
def maxPhotoResolutionForDevice (d : Device) : Option (ℕ × ℕ) :=
  (maxPhotoFormat d.formats).map fun f =>
    (f.photoWidth.getD 0, f.photoHeight.getD 0)

/-- The bounding-match predicate of variant 3: the catalog entry fits, in
either orientation, inside the device's maximum photo resolution. -/
def boundMatch (mw mh : ℕ) (s : String) : Bool :=
  decide (max (parseResolutionString s).1 (parseResolutionString s).2
            ≤ max mw mh)
    && decide (min (parseResolutionString s).1 (parseResolutionString s).2
            ≤ min mw mh)

/-- The availability filter of variant 3 applied to an arbitrary list
(`maxPhotoResolutionForDevice` absent yields `[]`). -/
def availFilterV3 (maxRes : Option (ℕ × ℕ)) (l : List String) : List String :=
  match maxRes with
  | none => []
  | some (mw, mh) => l.filter (boundMatch mw mh)

/-- `getAvailableResolutionsForRatio` of variant 3 (`App.tsx` lines
1595-1612). -/
def getAvailableResolutionsForRatio (maxRes : Option (ℕ × ℕ)) (key : String) :
    List String :=
  availFilterV3 maxRes (predefinedResolutionsByRatioV3 key)

/-! ## SelectionState: default device and position toggle -/

/-- `d.position === 'back' && d.physicalDevices.includes('wide-angle-camera')`. -/
def isBackWide (d : Device) : Bool :=
  decide (d.position = .back) && d.physicalDevices.contains .wideAngle

/-- `d.position === 'front' && d.physicalDevices.includes('wide-angle-camera')`. -/
def isFrontWide (d : Device) : Bool :=
  decide (d.position = .front) && d.physicalDevices.contains .wideAngle

/-- JS `a || b` on possibly-`undefined` object values. -/
def jsOrOpt (a b : Option Device) : Option Device :=
  match a with
  | some x => some x
  | none => b

/-- `backCamera || frontCamera || devices[0]` with
`backCamera = devices.find(isBackWide)` and
`frontCamera = devices.find(isFrontWide)` (`App.tsx` lines 84-85 and
174-177). -/
def defaultDevice (devices : List Device) : Option Device :=
  jsOrOpt (devices.find? isBackWide)
    (jsOrOpt (devices.find? isFrontWide) devices.head?)

/-- The mutable selection state of a screen variant: selected device, applied
camera format, and the user-selected resolution string. -/
structure SelState where
  selectedDevice : Option Device
  currentCameraFormat : Option Format
  selectedResolutionString : Option String
deriving DecidableEq, Repr

/-- Outcome signalled by `toggleCameraPosition` (the alerts of the source
made explicit, per the error-handling design). -/
inductive ToggleResult where
  | switched
  | noCounterpartDevice
  | noSelection
deriving DecidableEq, Repr

/-- Facing opposite to the given one. -/
def oppositePos : Position → Position
  | .back => .front
  | .front => .back

/-- `toggleCameraPosition` of variant 3 (`App.tsx` lines 1575-1593): with a
selected device, find the first device of the opposite facing; on success
select it and clear format and resolution string; otherwise leave the state
unchanged and signal that no counterpart exists. -/
def toggleCameraPosition (devices : List Device) (st : SelState) :
    SelState × ToggleResult :=
  match st.selectedDevice with
  | none => (st, .noSelection)
  | some cur =>
    let newDevice :=
      match cur.position with
      | .back => devices.find? fun d => decide (d.position = .front)
      | .front => devices.find? fun d => decide (d.position = .back)
    match newDevice with
    | some n =>
      ({ selectedDevice := some n, currentCameraFormat := none,
         selectedResolutionString := none }, .switched)
    | none => (st, .noCounterpartDevice)

/-! ## Helper lemmas about the scoring loop -/

theorem bestLoop_snd_le (d : Device) (target : ℕ × ℕ) :
    ∀ (l : List Format) (best : Option Format) (m : ℚ),
      m ≤ (bestLoop d target l best m).2 := by
  intro l
  induction l with
  | nil => intro best m; exact le_refl m
  | cons f rest ih =>
    intro best m
    rcases hs : score d target f with _ | s
    · simpa [bestLoop, hs] using ih best m
    · by_cases h : m < s
      · simpa [bestLoop, hs, h] using
          le_trans (le_of_lt h) (ih (some f) s)
      · simpa [bestLoop, hs, h] using ih best m

theorem bestLoop_ge_score (d : Device) (target : ℕ × ℕ) :
    ∀ (l : List Format) (best : Option Format) (m : ℚ) (f : Format) (s : ℚ),
      f ∈ l → score d target f = some s →
      s ≤ (bestLoop d target l best m).2 := by
  intro l
  induction l with
  | nil => intro best m f s hf; exact absurd hf (List.not_mem_nil f)
  | cons g rest ih =>
    intro best m f s hf hscore
    rcases List.mem_cons.mp hf with hfg | hfr
    · subst hfg
      rcases hs : score d target f with _ | t
      · exact absurd hscore (by simp [hs])
      · have hst : s = t := by
          rw [hs] at hscore; exact (Option.some.inj hscore).symm
        subst hst
        by_cases h : m < s
        · simpa [bestLoop, hs, h] using bestLoop_snd_le d target rest (some f) s
        · have hsm : s ≤ m := le_of_not_lt h
          simpa [bestLoop, hs, h] using
            le_trans hsm (bestLoop_snd_le d target rest best m)
    · rcases hs : score d target g with _ | t
      · simpa [bestLoop, hs] using ih best m f s hfr hscore
      · by_cases h : m < t
        · simpa [bestLoop, hs, h] using ih (some g) t f s hfr hscore
        · simpa [bestLoop, hs, h] using ih best m f s hfr hscore

theorem bestLoop_result (d : Device) (target : ℕ × ℕ) :
    ∀ (l : List Format) (best : Option Format) (m : ℚ),
      ((bestLoop d target l best m).1 = best ∧ (bestLoop d target l best m).2 = m)
      ∨ ∃ f ∈ l, (bestLoop d target l best m).1 = some f ∧
          score d target f = some (bestLoop d target l best m).2 := by
  intro l
  induction l with
  | nil => intro best m; exact Or.inl ⟨rfl, rfl⟩
  | cons g rest ih =>
    intro best m
    rcases hs : score d target g with _ | t
    · rcases ih best m with h | ⟨f, hf, h1, h2⟩
      · exact Or.inl (by simpa [bestLoop, hs] using h)
      · exact Or.inr ⟨f, List.mem_cons_of_mem g hf,
          by simpa [bestLoop, hs] using h1, by simpa [bestLoop, hs] using h2⟩
    · by_cases h : m < t
      · rcases ih (some g) t with ⟨h1, h2⟩ | ⟨f, hf, h1, h2⟩
        · refine Or.inr ⟨g, List.mem_cons_self g rest, ?_, ?_⟩
          · simpa [bestLoop, hs, h] using h1
          · have h2' : (bestLoop d target rest (some g) t).2 = t := h2
            simp [bestLoop, hs, h, h2']
        · exact Or.inr ⟨f, List.mem_cons_of_mem g hf,
            by simpa [bestLoop, hs, h] using h1,
            by simpa [bestLoop, hs, h] using h2⟩
      · rcases ih best m with h' | ⟨f, hf, h1, h2⟩
        · exact Or.inl (by simpa [bestLoop, hs, h] using h')
        · exact Or.inr ⟨f, List.mem_cons_of_mem g hf,
            by simpa [bestLoop, hs, h] using h1,
            by simpa [bestLoop, hs, h] using h2⟩

theorem bestLoop_all_none (d : Device) (target : ℕ × ℕ) :
    ∀ (l : List Format) (best : Option Format) (m : ℚ),
      (∀ f ∈ l, score d target f = none) →
      bestLoop d target l best m = (best, m) := by
  intro l
  induction l with
  | nil => intro best m _; rfl
  | cons g rest ih =>
    intro best m hall
    have hg : score d target g = none := hall g (List.mem_cons_self g rest)
    simpa [bestLoop, hg] using
      ih best m (fun f hf => hall f (List.mem_cons_of_mem g hf))

theorem aspectScore_pos (target : ℕ × ℕ) (w h : ℕ) :
    0 < aspectScore target w h := by
  unfold aspectScore
  have habs : (0 : ℚ) ≤ |(target.1 : ℚ) / (target.2 : ℚ) - (w : ℚ) / (h : ℚ)| :=
    abs_nonneg _
  have : (0 : ℚ) < 1 + |(target.1 : ℚ) / (target.2 : ℚ) - (w : ℚ) / (h : ℚ)| := by
    linarith
  exact div_pos one_pos this

theorem resolutionScore_nonneg (target : ℕ × ℕ) (w h : ℕ) :
    0 ≤ resolutionScore target w h := by
  unfold resolutionScore
  split
  · have habs : (0 : ℚ) ≤ |(w : ℚ) * (h : ℚ) - (target.1 : ℚ) * (target.2 : ℚ)| :=
      abs_nonneg _
    have : (0 : ℚ) < 1 +
        |(w : ℚ) * (h : ℚ) - (target.1 : ℚ) * (target.2 : ℚ)| / 100000 := by
      have : (0 : ℚ) ≤
          |(w : ℚ) * (h : ℚ) - (target.1 : ℚ) * (target.2 : ℚ)| / 100000 := by
        positivity
      linarith
    exact le_of_lt (div_pos one_pos this)
  · exact le_refl 0

theorem fovScore_pos (d : Device) (f : Format) : 0 < fovScore d f := by
  unfold fovScore
  split
  · split <;> norm_num
  · norm_num

theorem score_pos (d : Device) (target : ℕ × ℕ) (f : Format) (s : ℚ)
    (hs : score d target f = some s) : 0 < s := by
  unfold score at hs
  rcases hw : f.photoWidth with _ | w <;> rcases hh : f.photoHeight with _ | h <;>
    simp [hw, hh] at hs
  have hsum : 0 < aspectScore target w h * 2 + resolutionScore target w h * 1.5 := by
    have h1 := aspectScore_pos target w h
    have h2 := resolutionScore_nonneg target w h
    nlinarith
  have := mul_pos hsum (fovScore_pos d f)
  rw [hs] at this
  exact this

theorem score_isSome (d : Device) (target : ℕ × ℕ) (f : Format) (w h : ℕ)
    (hw : f.photoWidth = some w) (hh : f.photoHeight = some h) :
    score d target f =
      some ((aspectScore target w h * 2 + resolutionScore target w h * 1.5)
        * fovScore d f) := by
  unfold score
  rw [hw, hh]

theorem score_isNone (d : Device) (target : ℕ × ℕ) (f : Format)
    (hf : f.photoWidth = none ∨ f.photoHeight = none) :
    score d target f = none := by
  unfold score
  rcases hf with hw | hh
  · rw [hw]
  · rw [hh]; rcases f.photoWidth with _ | w <;> rfl

/-! ## Small helper lemmas for the zoom policy -/

theorem jsOrOne_some_pos (v : ℚ) (hv : 0 < v) : jsOrOne (some v) = v := by
  simp [jsOrOne, ne_of_gt hv]

theorem jsOrOne_falsy (x : Option ℚ) (hx : x = none ∨ x = some 0) :
    jsOrOne x = 1 := by
  rcases hx with hx | hx <;> subst hx <;> simp [jsOrOne]

/-! ## Claim C1 -/

/-- Concrete back dual-wide device whose `minZoom` and `neutralZoom`
differ. -/
def zoomDeviceC1 : Device :=
  { name := "dualwide", id := "dw0", position := .back,
    physicalDevices := [.ultraWideAngle, .wideAngle], formats := [],
    minZoom := some 2, neutralZoom := some 3, maxZoom := some 10 }

/-- C1 counterexample: in screen variant 1 a back device tagged both
ultra-wide-angle and wide-angle gets default zoom `minZoom` (here `2`), not
its positive `neutralZoom` (here `3`), refuting the claim for the variant-1
effect it cites. -/
theorem c1_counterexample :
    zoomDeviceC1.neutralZoom = some 3 ∧ (0 : ℚ) < 3 ∧
      defaultZoomV1 zoomDeviceC1 = 2 ∧ (2 : ℚ) ≠ 3 := by
  refine ⟨rfl, by norm_num, ?_, by norm_num⟩
  simp [defaultZoomV1, isDualWideBack, zoomDeviceC1, jsOrOne]

/-- C1 (amended): in variant 3 the default zoom equals `neutralZoom` whenever
it is present and positive and `1` when it is absent or zero, for every
device; in variant 1 the same holds for every device that is not a back
dual-wide device, while a back dual-wide device derives its default zoom from
`minZoom` instead. -/
theorem c1_zoom_default (d : Device) :
    ((∀ v : ℚ, d.neutralZoom = some v → 0 < v → defaultZoomV3 d = v) ∧
      ((d.neutralZoom = none ∨ d.neutralZoom = some 0) → defaultZoomV3 d = 1)) ∧
    (isDualWideBack d = false →
      (∀ v : ℚ, d.neutralZoom = some v → 0 < v → defaultZoomV1 d = v) ∧
      ((d.neutralZoom = none ∨ d.neutralZoom = some 0) → defaultZoomV1 d = 1)) ∧
    (isDualWideBack d = true →
      (∀ v : ℚ, d.minZoom = some v → 0 < v → defaultZoomV1 d = v) ∧
      ((d.minZoom = none ∨ d.minZoom = some 0) → defaultZoomV1 d = 1)) := by
  refine ⟨⟨?_, ?_⟩, fun hdw => ⟨?_, ?_⟩, fun hdw => ⟨?_, ?_⟩⟩
  · intro v hv hvpos
    unfold defaultZoomV3
    split <;> rw [hv] <;> exact jsOrOne_some_pos v hvpos
  · intro hx
    unfold defaultZoomV3
    split <;> exact jsOrOne_falsy _ hx
  · intro v hv hvpos
    unfold defaultZoomV1
    rw [hdw]
    simpa [hv] using jsOrOne_some_pos v hvpos
  · intro hx
    unfold defaultZoomV1
    rw [hdw]
    simpa using jsOrOne_falsy _ hx
  · intro v hv hvpos
    unfold defaultZoomV1
    rw [hdw]
    simpa [hv] using jsOrOne_some_pos v hvpos
  · intro hx
    unfold defaultZoomV1
    rw [hdw]
    simpa using jsOrOne_falsy _ hx

/-- C1 witness: the amended theorem applied to the concrete dual-wide device,
whose variant-3 default zoom is its `neutralZoom` of `3`. -/
theorem c1_zoom_default_witness : defaultZoomV3 zoomDeviceC1 = 3 :=
  (c1_zoom_default zoomDeviceC1).1.1 3 rfl (by norm_num)

/-! ## Claim C2 -/

/-- Concrete back device tagged exactly ultra-wide-angle and telephoto. -/
def uwTeleBackDevice : Device :=
  { name := "utb", id := "utb0", position := .back,
    physicalDevices := [.ultraWideAngle, .telephoto], formats := [],
    minZoom := none, neutralZoom := none, maxZoom := none }

/-- C2 counterexample: a back device whose tag set is exactly
{ultra-wide-angle, telephoto} is classified "Back Telephoto Camera" (the
fourth rule tests telephoto presence, not telephoto-only), not
"Back Camera" as the claim states. -/
theorem c2_counterexample :
    classify uwTeleBackDevice = "Back Telephoto Camera" ∧
      classify uwTeleBackDevice ≠ "Back Camera" := by
  constructor
  · rfl
  · decide

/-- C2 (amended): the classifier is total and deterministic — every device
receives exactly one of the nine defined labels — and a back device carrying
ultra-wide-angle and telephoto but not wide-angle is labeled
"Back Telephoto Camera" (it does not fall through to the final else). -/
theorem c2_classifier_total (d : Device) :
    classify d ∈ nineLabels ∧
    (d.position = .back →
      d.physicalDevices.contains .ultraWideAngle = true →
      d.physicalDevices.contains .telephoto = true →
      d.physicalDevices.contains .wideAngle = false →
      classify d = "Back Telephoto Camera") := by
  obtain ⟨n, i, pos, tags, fmts, mz, nz, xz⟩ := d
  constructor
  · cases pos <;> simp only [classify] <;> (repeat' split) <;> simp [nineLabels]
  · intro hpos h1 h2 h3
    cases pos with
    | front => exact absurd hpos (by simp)
    | back =>
      simp at h1 h2 h3
      simp [classify, h1, h2, h3]

/-- C2 witness: the amended theorem applied to the concrete
{ultra-wide-angle, telephoto} back device. -/
theorem c2_classifier_total_witness :
    classify uwTeleBackDevice = "Back Telephoto Camera" ∧
      classify uwTeleBackDevice ∈ nineLabels :=
  ⟨(c2_classifier_total uwTeleBackDevice).2 rfl rfl rfl rfl,
    (c2_classifier_total uwTeleBackDevice).1⟩

/-! ## Claim C4 -/

/-- Concrete format with a field of view inside `[65, 95]`. -/
def fovFormatC4 : Format :=
  { videoWidth := 1920, videoHeight := 1080, photoWidth := some 4000,
    photoHeight := some 3000, maxFrameRate := 30, fieldOfView := 70 }

/-- Concrete device exposing ultra-wide-angle and telephoto but no
wide-angle lens. -/
def uwTeleDeviceC4 : Device :=
  { name := "utd", id := "utd0", position := .back,
    physicalDevices := [.ultraWideAngle, .telephoto], formats := [fovFormatC4],
    minZoom := some 1, neutralZoom := some 1, maxZoom := some 10 }

/-- C4 counterexample: a device tagged {ultra-wide-angle, telephoto} without
wide-angle exposes more than one lens kind including a non-wide lens, and its
format's field of view `70` lies in `[65, 95]`, yet the fov multiplier is
`1`, not the claimed `1.5` (the source guard additionally requires the
wide-angle tag). -/
theorem c4_counterexample :
    uwTeleDeviceC4.physicalDevices.contains .ultraWideAngle = true ∧
    uwTeleDeviceC4.physicalDevices.contains .telephoto = true ∧
    uwTeleDeviceC4.physicalDevices.contains .wideAngle = false ∧
    (65 ≤ fovFormatC4.fieldOfView ∧ fovFormatC4.fieldOfView ≤ 95) ∧
    fovScore uwTeleDeviceC4 fovFormatC4 = 1 ∧
    (1 : ℚ) ≠ 1.5 := by
  refine ⟨rfl, rfl, rfl, by constructor <;> norm_num [fovFormatC4], ?_,
    by norm_num⟩
  simp [fovScore, multiLens, uwTeleDeviceC4]

/-- C4 (amended): the fov multiplier is `1.5`/`0.8` (inside/outside
`[65, 95]`) exactly when the device carries the wide-angle tag together with
ultra-wide-angle or telephoto, and `1` otherwise — in particular a device
tagged {ultra-wide-angle, telephoto} without wide-angle gets multiplier
`1`. -/
theorem c4_fov_multiplier (d : Device) (f : Format) :
    (multiLens d = true →
      ((65 ≤ f.fieldOfView ∧ f.fieldOfView ≤ 95) → fovScore d f = 1.5) ∧
      (¬(65 ≤ f.fieldOfView ∧ f.fieldOfView ≤ 95) → fovScore d f = 0.8)) ∧
    (multiLens d = false → fovScore d f = 1) := by
  refine ⟨fun hm => ⟨fun hf => ?_, fun hf => ?_⟩, fun hm => ?_⟩
  · simp [fovScore, hm, hf]
  · simp [fovScore, hm, hf]
  · simp [fovScore, hm]

/-- Concrete wide-plus-telephoto device for the C4 witness. -/
def wideTeleDeviceC4 : Device :=
  { name := "wtd", id := "wtd0", position := .back,
    physicalDevices := [.wideAngle, .telephoto], formats := [fovFormatC4],
    minZoom := some 1, neutralZoom := some 1, maxZoom := some 10 }

/-- C4 witness: the amended theorem applied to a concrete wide-plus-telephoto
device and a format with field of view `70`. -/
theorem c4_fov_multiplier_witness :
    fovScore wideTeleDeviceC4 fovFormatC4 = 1.5 :=
  (c4_fov_multiplier wideTeleDeviceC4 fovFormatC4).1 rfl
    |>.1 (by constructor <;> norm_num [fovFormatC4])

/-! ## Claim C8 -/

/-- C8: on a non-empty device list with no prior selection, the default
device is the first back-facing wide-angle device, else the first
front-facing wide-angle device, else the first device of the list. -/
theorem c8_default_device (devices : List Device) (hne : devices ≠ []) :
    (∀ b, devices.find? isBackWide = some b → defaultDevice devices = some b) ∧
    (devices.find? isBackWide = none →
      ∀ fc, devices.find? isFrontWide = some fc →
        defaultDevice devices = some fc) ∧
    (devices.find? isBackWide = none → devices.find? isFrontWide = none →
      ∃ hd, devices.head? = some hd ∧ defaultDevice devices = some hd) := by
  refine ⟨?_, ?_, ?_⟩
  · intro b hb
    simp [defaultDevice, jsOrOpt, hb]
  · intro hb fc hfc
    simp [defaultDevice, jsOrOpt, hb, hfc]
  · intro hb hf
    cases devices with
    | nil => exact absurd rfl hne
    | cons a l =>
      exact ⟨a, rfl, by simp [defaultDevice, jsOrOpt, hb, hf]⟩

/-- Concrete plain front device (no wide-angle tag) for the C8 witness. -/
def plainFrontDeviceC8 : Device :=
  { name := "pf", id := "pf0", position := .front,
    physicalDevices := [.ultraWideAngle], formats := [],
    minZoom := some 1, neutralZoom := some 1, maxZoom := some 10 }

/-- Concrete back wide-angle device for the C8 witness. -/
def backWideDeviceC8 : Device :=
  { name := "bw", id := "bw0", position := .back,
    physicalDevices := [.wideAngle], formats := [],
    minZoom := some 1, neutralZoom := some 1, maxZoom := some 10 }

/-- C8 witness: on a concrete list the first back wide-angle device wins even
when listed after a front device. -/
theorem c8_default_device_witness :
    defaultDevice [plainFrontDeviceC8, backWideDeviceC8] = some backWideDeviceC8 :=
  (c8_default_device [plainFrontDeviceC8, backWideDeviceC8]
    (by simp)).1 backWideDeviceC8 rfl

/-! ## Claim C9 -/

/-- C9: with a selected device, if no device of the opposite facing exists
the toggle leaves the whole selection state unchanged and signals
`noCounterpartDevice`; otherwise the first device of the opposite facing
becomes selected and the toggle signals `switched`. -/
theorem c9_toggle_position (devices : List Device) (st : SelState)
    (cur : Device) (hsel : st.selectedDevice = some cur) :
    ((∀ d ∈ devices, d.position ≠ oppositePos cur.position) →
      toggleCameraPosition devices st = (st, ToggleResult.noCounterpartDevice)) ∧
    (∀ n, devices.find? (fun d => decide (d.position = oppositePos cur.position))
        = some n →
      (toggleCameraPosition devices st).1.selectedDevice = some n ∧
      (toggleCameraPosition devices st).1.currentCameraFormat = none ∧
      (toggleCameraPosition devices st).1.selectedResolutionString = none ∧
      (toggleCameraPosition devices st).2 = ToggleResult.switched) := by
  have hfindnone : ∀ p : Position, (∀ d ∈ devices, d.position ≠ p) →
      devices.find? (fun d => decide (d.position = p)) = none := by
    intro p hp
    apply List.find?_eq_none.mpr
    intro x hx
    simp [hp x hx]
  constructor
  · intro hno
    cases hcp : cur.position with
    | back =>
      have h1 : devices.find? (fun d => decide (d.position = .front)) = none := by
        apply hfindnone
        intro d hd
        have := hno d hd
        rwa [hcp] at this
      simp [toggleCameraPosition, hsel, hcp, h1]
    | front =>
      have h1 : devices.find? (fun d => decide (d.position = .back)) = none := by
        apply hfindnone
        intro d hd
        have := hno d hd
        rwa [hcp] at this
      simp [toggleCameraPosition, hsel, hcp, h1]
  · intro n hn
    cases hcp : cur.position with
    | back =>
      rw [hcp] at hn
      simp only [oppositePos] at hn
      simp [toggleCameraPosition, hsel, hcp, hn]
    | front =>
      rw [hcp] at hn
      simp only [oppositePos] at hn
      simp [toggleCameraPosition, hsel, hcp, hn]

/-- Concrete back device for the C9 witness. -/
def backDeviceC9 : Device :=
  { name := "b9", id := "b90", position := .back,
    physicalDevices := [.wideAngle], formats := [],
    minZoom := some 1, neutralZoom := some 1, maxZoom := some 10 }

/-- Concrete selection state for the C9 witness. -/
def selStateC9 : SelState :=
  { selectedDevice := some backDeviceC9,
    currentCameraFormat := none,
    selectedResolutionString := some "1920x1080" }

/-- C9 witness: toggling on a list with only back devices leaves the state
unchanged and signals `noCounterpartDevice`. -/
theorem c9_toggle_position_witness :
    toggleCameraPosition [backDeviceC9] selStateC9
      = (selStateC9, ToggleResult.noCounterpartDevice) :=
  (c9_toggle_position [backDeviceC9] selStateC9 backDeviceC9 rfl).1
    (by intro d hd; simp at hd; subst hd; decide)

/-! ## Claim C10 -/

/-- C10: `findBestFormatForResolution` accepts the aspect-ratio hint but
never reads it — for any two hint values the selected format is the same. -/
theorem c10_hint_ignored (d : Device) (target : ℕ × ℕ) (k1 k2 : String) :
    findBestFormatForResolution d target k1
      = findBestFormatForResolution d target k2 := rfl

/-! ## Claim C6 -/

/-- Filtering is idempotent on any list (helper for C6). -/
theorem filter_idem {α : Type} (p : α → Bool) (l : List α) :
    (l.filter p).filter p = l.filter p := by
  induction l with
  | nil => rfl
  | cons a t ih =>
    by_cases h : p a
    · simp [List.filter_cons, h, ih]
    · simp [List.filter_cons, h, ih]

/-- C6: each variant's availability filter returns a sub-sequence of its
catalog sequence, in catalog order, and re-applying the same filter to its
own output leaves it unchanged. -/
theorem c6_subsequence_idempotent (dOpt : Option Device)
    (maxRes : Option (ℕ × ℕ)) (key : String) :
    ((getSupportedResolutionsForRatioV1 dOpt key).Sublist
        (predefinedResolutionsByRatio key) ∧
      availFilterV1 dOpt (getSupportedResolutionsForRatioV1 dOpt key)
        = getSupportedResolutionsForRatioV1 dOpt key) ∧
    ((getSupportedResolutionsForRatioV2 dOpt key).Sublist
        (predefinedResolutionsByRatio key) ∧
      availFilterV2 dOpt (getSupportedResolutionsForRatioV2 dOpt key)
        = getSupportedResolutionsForRatioV2 dOpt key) ∧
    ((getAvailableResolutionsForRatio maxRes key).Sublist
        (predefinedResolutionsByRatioV3 key) ∧
      availFilterV3 maxRes (getAvailableResolutionsForRatio maxRes key)
        = getAvailableResolutionsForRatio maxRes key) := by
  refine ⟨⟨?_, ?_⟩, ⟨?_, ?_⟩, ⟨?_, ?_⟩⟩
  · cases dOpt with
    | none => exact List.nil_sublist _
    | some d => exact List.filter_sublist _
  · cases dOpt with
    | none => rfl
    | some d => exact filter_idem _ _
  · cases dOpt with
    | none => exact List.nil_sublist _
    | some d => exact List.filter_sublist _
  · cases dOpt with
    | none => rfl
    | some d => exact filter_idem _ _
  · cases maxRes with
    | none => exact List.nil_sublist _
    | some mr =>
      obtain ⟨mw, mh⟩ := mr
      exact List.filter_sublist _
  · cases maxRes with
    | none => rfl
    | some mr =>
      obtain ⟨mw, mh⟩ := mr
      exact filter_idem _ _

/-! ## Claim C5 -/

/-- Concrete landscape-sensor device (maximum photo resolution 4032×3024)
for the C5 counterexample. -/
def landscapeSensorDeviceC5 : Device :=
  { name := "ls", id := "ls0", position := .back,
    physicalDevices := [.wideAngle],
    formats := [{ videoWidth := 1920, videoHeight := 1080,
                  photoWidth := some 4032, photoHeight := some 3024,
                  maxFrameRate := 30, fieldOfView := 70 }],
    minZoom := some 1, neutralZoom := some 1, maxZoom := some 10 }

/-- C5 counterexample: with maximum photo resolution 4032×3024 the portrait
catalog entry 3024×4032 is offered (its max/min dimensions fit the device's
max/min dimensions) even though the claimed condition `width ≥ 3024 ∧
height ≥ 4032` fails on the height axis. -/
theorem c5_counterexample :
    maxPhotoResolutionForDevice landscapeSensorDeviceC5 = some (4032, 3024) ∧
    "3024x4032" ∈ getAvailableResolutionsForRatio
      (maxPhotoResolutionForDevice landscapeSensorDeviceC5)
      "3x4 Portrait (3:4)" ∧
    ¬(3024 ≤ 4032 ∧ 4032 ≤ 3024) := by
  refine ⟨rfl, by decide, by omega⟩

/-- C5 (amended): in bounding-match mode a catalog entry (w, h) is offered
if and only if `max w h ≤ max mw mh` and `min w h ≤ min mw mh`, where
(mw, mh) is the device's maximum available photo resolution chosen by
greatest photo area — an orientation-agnostic envelope check rather than the
claimed axis-wise `mw ≥ w ∧ mh ≥ h`. -/
theorem c5_bounding_match (d : Device) (key : String) (mw mh : ℕ) (s : String)
    (hmax : maxPhotoResolutionForDevice d = some (mw, mh)) :
    s ∈ getAvailableResolutionsForRatio (maxPhotoResolutionForDevice d) key ↔
      s ∈ predefinedResolutionsByRatioV3 key ∧
        max (parseResolutionString s).1 (parseResolutionString s).2
          ≤ max mw mh ∧
        min (parseResolutionString s).1 (parseResolutionString s).2
          ≤ min mw mh := by
  rw [hmax]
  simp [getAvailableResolutionsForRatio, availFilterV3, boundMatch,
    List.mem_filter]

/-- Concrete device for the C5 witness. -/
def witnessDeviceC5 : Device :=
  { name := "w5", id := "w50", position := .back,
    physicalDevices := [.wideAngle],
    formats := [{ videoWidth := 1920, videoHeight := 1080,
                  photoWidth := some 4032, photoHeight := some 3024,
                  maxFrameRate := 30, fieldOfView := 70 }],
    minZoom := some 1, neutralZoom := some 1, maxZoom := some 10 }

/-- C5 witness: the amended theorem applied at a concrete device and catalog
entry. -/
theorem c5_bounding_match_witness :
    "1280x960" ∈ getAvailableResolutionsForRatio
      (maxPhotoResolutionForDevice witnessDeviceC5) "4x3 Landscape (4:3)" :=
  (c5_bounding_match witnessDeviceC5 "4x3 Landscape (4:3)" 4032 3024
    "1280x960" rfl).mpr ⟨by decide, by decide, by decide⟩

/-! ## Claim C7 -/

/-- A score exists exactly for formats with both photo dimensions (helper
for C7). -/
theorem score_some_dims (d : Device) (target : ℕ × ℕ) (f : Format) (s : ℚ)
    (hs : score d target f = some s) :
    ∃ w h : ℕ, f.photoWidth = some w ∧ f.photoHeight = some h := by
  rcases hw : f.photoWidth with _ | w <;> rcases hh : f.photoHeight with _ | h
  · exact absurd hs (by simp [score_isNone d target f (Or.inl hw)])
  · exact absurd hs (by simp [score_isNone d target f (Or.inl hw)])
  · exact absurd hs (by simp [score_isNone d target f (Or.inr hh)])
  · exact ⟨w, h, hw ▸ rfl, hh ▸ rfl⟩

/-- C7: the scorer returns `none` exactly when no format of the device has
both photo dimensions, and a format lacking a photo dimension is never the
returned result (its JS score is `NaN`, which never wins the strict
comparison). -/
theorem c7_none_iff (d : Device) (target : ℕ × ℕ) (key : String) :
    (findBestFormatForResolution d target key = none ↔
      ∀ f ∈ d.formats, f.photoWidth = none ∨ f.photoHeight = none) ∧
    (∀ f0, findBestFormatForResolution d target key = some f0 →
      ∃ w h : ℕ, f0.photoWidth = some w ∧ f0.photoHeight = some h) := by
  constructor
  · constructor
    · intro hnone f hf
      by_contra hc
      push_neg at hc
      obtain ⟨hw, hh⟩ := hc
      rcases hw' : f.photoWidth with _ | w
      · exact hw hw'
      rcases hh' : f.photoHeight with _ | h
      · exact hh hh'
      have hscore := score_isSome d target f w h hw' hh'
      have hpos := score_pos d target f _ hscore
      rcases bestLoop_result d target d.formats none (-1) with ⟨h1, h2⟩ |
          ⟨g, hg, h1, h2⟩
      · have hle := bestLoop_ge_score d target d.formats none (-1) f _ hf hscore
        rw [h2] at hle
        linarith
      · exact absurd (hnone ▸ h1 : (none : Option Format) = some g) (by simp)
    · intro hall
      have : ∀ f ∈ d.formats, score d target f = none := by
        intro f hf
        exact score_isNone d target f (hall f hf)
      unfold findBestFormatForResolution
      rw [bestLoop_all_none d target d.formats none (-1) this]
  · intro f0 hf0
    rcases bestLoop_result d target d.formats none (-1) with ⟨h1, _⟩ |
        ⟨g, hg, h1, h2⟩
    · exact absurd (hf0 ▸ h1 : some f0 = none) (by simp)
    · have hgf0 : g = f0 := by
        have : some g = some f0 := h1 ▸ hf0
        exact Option.some.inj this
      subst hgf0
      exact score_some_dims d target g _ h2

/-- Concrete photo-capable format for the C7 witness. -/
def witnessFormatC7 : Format :=
  { videoWidth := 640, videoHeight := 480, photoWidth := some 10,
    photoHeight := some 10, maxFrameRate := 30, fieldOfView := 70 }

/-- Concrete single-format device for the C7 witness. -/
def witnessDeviceC7 : Device :=
  { name := "w7", id := "w70", position := .back,
    physicalDevices := [.wideAngle], formats := [witnessFormatC7],
    minZoom := some 1, neutralZoom := some 1, maxZoom := some 10 }

/-- C7 witness: the theorem applied at a concrete device whose single
photo-capable format is returned. -/
theorem c7_none_iff_witness :
    ∃ w h : ℕ, witnessFormatC7.photoWidth = some w ∧
      witnessFormatC7.photoHeight = some h :=
  (c7_none_iff witnessDeviceC7 (10, 10) "Square (1:1)").2 witnessFormatC7
    (by
      simp [findBestFormatForResolution, bestLoop, score, aspectScore,
        resolutionScore, fovScore, multiLens, witnessDeviceC7, witnessFormatC7]
      norm_num)

/-! ## Claim C3 -/

/-- Concrete format undersized on both axes for target 1000×1000 but with
the target's exact aspect ratio. -/
def undersizedFormatC3 : Format :=
  { videoWidth := 1280, videoHeight := 720, photoWidth := some 999,
    photoHeight := some 999, maxFrameRate := 30, fieldOfView := 70 }

/-- Concrete adequate but extremely wide format for target 1000×1000. -/
def adequateFormatC3 : Format :=
  { videoWidth := 1280, videoHeight := 720, photoWidth := some 100000,
    photoHeight := some 1000, maxFrameRate := 30, fieldOfView := 70 }

/-- Concrete single-lens device holding both formats. -/
def skewedDeviceC3 : Device :=
  { name := "sk", id := "sk0", position := .back,
    physicalDevices := [.wideAngle],
    formats := [undersizedFormatC3, adequateFormatC3],
    minZoom := some 1, neutralZoom := some 1, maxZoom := some 10 }

/-- C3 counterexample: for target 1000×1000 the device has an adequate format
(100000×1000, both axes ≥ target), yet the scorer returns the 999×999 format,
undersized on both axes — its perfect aspect score (2) beats the adequate
format's total (2132/99100 ≈ 0.0215). -/
theorem c3_counterexample :
    findBestFormatForResolution skewedDeviceC3 (1000, 1000) "Square (1:1)"
        = some undersizedFormatC3 ∧
    undersizedFormatC3.photoWidth = some 999 ∧
    undersizedFormatC3.photoHeight = some 999 ∧
    999 < 1000 ∧
    adequateFormatC3 ∈ skewedDeviceC3.formats ∧
    adequateFormatC3.photoWidth = some 100000 ∧
    adequateFormatC3.photoHeight = some 1000 ∧
    1000 ≤ 100000 ∧ 1000 ≤ 1000 := by
  refine ⟨?_, rfl, rfl, by omega, by simp [skewedDeviceC3], rfl, rfl,
    by omega, le_refl _⟩
  simp [findBestFormatForResolution, bestLoop, score, aspectScore,
    resolutionScore, fovScore, multiLens, skewedDeviceC3, undersizedFormatC3,
    adequateFormatC3]
  norm_num

/-- C3 (amended): the guarantee holds under the conditions that make the
aspect and fov terms uniform — a device that fails the multi-lens guard and
whose photo-capable formats all share the target's aspect ratio: then, when
an adequate format (both axes ≥ target) exists, the returned format is never
undersized on both axes.  Without these conditions the aspect term can let an
undersized format outscore every adequate one (see the counterexample). -/
theorem c3_no_undersized (d : Device) (tw th : ℕ) (key : String)
    (hml : multiLens d = false)
    (har : ∀ f ∈ d.formats, ∀ w h : ℕ, f.photoWidth = some w →
      f.photoHeight = some h → (w : ℚ) / (h : ℚ) = (tw : ℚ) / (th : ℚ))
    (hadq : ∃ g ∈ d.formats, ∃ w h : ℕ, g.photoWidth = some w ∧
      g.photoHeight = some h ∧ tw ≤ w ∧ th ≤ h) :
    ∀ f0, findBestFormatForResolution d (tw, th) key = some f0 →
      ¬∃ w h : ℕ, f0.photoWidth = some w ∧ f0.photoHeight = some h ∧
        w < tw ∧ h < th := by
  obtain ⟨g, hg, wg, hgg, hwg, hhg, hge1, hge2⟩ := hadq
  have haspect : ∀ f ∈ d.formats, ∀ w h : ℕ, f.photoWidth = some w →
      f.photoHeight = some h → aspectScore (tw, th) w h = 1 := by
    intro f hf w h hw hh
    unfold aspectScore
    rw [show ((tw, th).1 : ℚ) / ((tw, th).2 : ℚ) = (tw : ℚ) / (th : ℚ) from rfl,
      ← har f hf w h hw hh]
    simp
  have hfov : ∀ f : Format, fovScore d f = 1 := by
    intro f
    simp [fovScore, hml]
  -- the adequate format's score strictly exceeds 2
  have hresg : 0 < resolutionScore (tw, th) wg hgg := by
    unfold resolutionScore
    rw [if_pos ⟨hge1, hge2⟩]
    have habs : (0 : ℚ) ≤
        |(wg : ℚ) * (hgg : ℚ) - ((tw, th).1 : ℚ) * ((tw, th).2 : ℚ)| :=
      abs_nonneg _
    have hden : (0 : ℚ) < 1 +
        |(wg : ℚ) * (hgg : ℚ) - ((tw, th).1 : ℚ) * ((tw, th).2 : ℚ)| / 100000 := by
      positivity
    exact div_pos one_pos hden
  have hscoreg : score d (tw, th) g =
      some ((aspectScore (tw, th) wg hgg * 2
        + resolutionScore (tw, th) wg hgg * 1.5) * fovScore d g) :=
    score_isSome d (tw, th) g wg hgg hwg hhg
  have hsg : score d (tw, th) g =
      some (2 + resolutionScore (tw, th) wg hgg * 1.5) := by
    rw [hscoreg, haspect g hg wg hgg hwg hhg, hfov g]
    ring_nf
  have hsg_gt : (2 : ℚ) < 2 + resolutionScore (tw, th) wg hgg * 1.5 := by
    nlinarith
  intro f0 hf0 hund
  obtain ⟨w0, h0, hw0, hh0, hlt1, hlt2⟩ := hund
  rcases bestLoop_result d (tw, th) d.formats none (-1) with ⟨h1, _⟩ |
      ⟨f, hf, h1, h2⟩
  · exact absurd (hf0 ▸ h1 : some f0 = none) (by simp)
  · have hff0 : f = f0 := Option.some.inj (h1 ▸ hf0 :
      some f = some f0)
    subst hff0
    -- the returned format's score is exactly 2
    have hres0 : resolutionScore (tw, th) w0 h0 = 0 := by
      unfold resolutionScore
      rw [if_neg]
      rintro ⟨hc1, _⟩
      omega
    have hscore0 : score d (tw, th) f = some 2 := by
      rw [score_isSome d (tw, th) f w0 h0 hw0 hh0,
        haspect f hf w0 h0 hw0 hh0, hfov f, hres0]
      norm_num
    have hsnd : (bestLoop d (tw, th) d.formats none (-1)).2 = 2 := by
      have := h2 ▸ hscore0
      exact (Option.some.inj (hscore0 ▸ h2 : some (2 : ℚ) =
        some (bestLoop d (tw, th) d.formats none (-1)).2)).symm
    have hle := bestLoop_ge_score d (tw, th) d.formats none (-1) g _ hg hsg
    rw [hsnd] at hle
    linarith

/-- Concrete square format exactly meeting target 1000×1000 for the C3
witness. -/
def witnessFormatC3 : Format :=
  { videoWidth := 1280, videoHeight := 720, photoWidth := some 1000,
    photoHeight := some 1000, maxFrameRate := 30, fieldOfView := 70 }

/-- Concrete single-lens single-format device for the C3 witness. -/
def witnessDeviceC3 : Device :=
  { name := "w3", id := "w30", position := .back,
    physicalDevices := [.wideAngle], formats := [witnessFormatC3],
    minZoom := some 1, neutralZoom := some 1, maxZoom := some 10 }

/-- C3 witness: the amended theorem applied at a concrete device whose only
format is adequate, concluding the returned format is not undersized. -/
theorem c3_no_undersized_witness :
    ¬∃ w h : ℕ, witnessFormatC3.photoWidth = some w ∧
      witnessFormatC3.photoHeight = some h ∧ w < 1000 ∧ h < 1000 :=
  c3_no_undersized witnessDeviceC3 1000 1000 "Square (1:1)" rfl
    (by
      intro f hf w h hw hh
      simp [witnessDeviceC3] at hf
      subst hf
      simp [witnessFormatC3] at hw hh
      subst hw
      subst hh
      norm_num)
    ⟨witnessFormatC3, by simp [witnessDeviceC3], 1000, 1000, rfl, rfl,
      le_refl _, le_refl _⟩
    witnessFormatC3
    (by
      simp [findBestFormatForResolution, bestLoop, score, aspectScore,
        resolutionScore, fovScore, multiLens, witnessDeviceC3, witnessFormatC3]
      norm_num)
